import Mathlib

/-!
Verification of the engine-simulator code base: a shallow embedding of the
vehicle/engine physics loop (`app.js`) and of the audio synthesizer's
rev-limiter and output stages (`engine-processor.js`), with theorems checking
the documented behaviour against the embedded code.

Rational-valued parts of the code are embedded over `ℚ` (computable), parts
that use `Math.PI`, `Math.pow(x, 1.5)`, `Math.sqrt` or `Math.tanh` are
embedded over `ℝ`.
-/

/- ---------------------------------------------------------------------- -/
/- engine-processor.js : rev limiter (EngineProcessor.process, per sample) -/
/- ---------------------------------------------------------------------- -/

/-- Rev limiter state carried across samples: the cycle counter
`this.revLimiterCycle` and the flag `this.revLimiterActive`. -/
structure RevLimiterState where
  cycle : ℚ
  active : Bool
deriving DecidableEq

/-- One per-sample step of the rev limiter (engine-processor.js, the
`rpm > redlineRpm * 0.98` block): the counter advances by `0.15`, wraps to `0`
past `1.0`, and the returned cut factor is `0.05` while the counter is below
`0.3`, else `1`.  Below the threshold the state is reset and the cut is `1`. -/
def revLimiterStep (redlineRpm rpm : ℚ) (st : RevLimiterState) : RevLimiterState × ℚ :=
  if rpm > redlineRpm * 0.98 then
    let cycle1 := st.cycle + 0.15
    let cycle2 := if cycle1 > 1 then 0 else cycle1
    (⟨cycle2, true⟩, if cycle2 < 0.3 then 0.05 else 1)
  else
    (⟨0, false⟩, 1)

/-- The rev limiter state after `n` samples at a constant `rpm`. -/
def revLimiterIter (redlineRpm rpm : ℚ) (st : RevLimiterState) : ℕ → RevLimiterState
  | 0 => st
  | n + 1 => (revLimiterStep redlineRpm rpm (revLimiterIter redlineRpm rpm st n)).1

/-- The cut factor applied to sample `n` (counting from `0`) at constant `rpm`. -/
def revLimiterCutSeq (redlineRpm rpm : ℚ) (st : RevLimiterState) (n : ℕ) : ℚ :=
  (revLimiterStep redlineRpm rpm (revLimiterIter redlineRpm rpm st n)).2

/- ---------------------------------------------------------------------- -/
/- engine-processor.js : anti-aliased harmonic loop                        -/
/- ---------------------------------------------------------------------- -/

/-- Firing frequency `(rpm / 60) * (ncyl / 2) * jitter * drift`
(engine-processor.js). -/
def fFire (rpm ncyl jitter drift : ℚ) : ℚ :=
  rpm / 60 * (ncyl / 2) * jitter * drift

/-- The harmonic loop `for k = 1..24 { if (k * f_fire >= nyquist) break; ... }`
modelled with explicit fuel: the list of harmonic indices the loop body
actually processes, starting at index `k`. -/
def harmLoopFrom (f nyquist : ℚ) : ℕ → ℕ → List ℕ
  | _, 0 => []
  | k, fuel + 1 =>
    if (k : ℚ) * f ≥ nyquist then [] else k :: harmLoopFrom f nyquist (k + 1) fuel

/-- The harmonic indices processed by the synthesis loop (k = 1 .. 24,
stopping at the first harmonic at or above Nyquist). -/
def processedHarmonics (f nyquist : ℚ) : List ℕ :=
  harmLoopFrom f nyquist 1 24

/- ---------------------------------------------------------------------- -/
/- app.js : sensor-based throttle estimation                               -/
/- ---------------------------------------------------------------------- -/

/-- The cruise-throttle input handler: `Math.max(0, Math.min(0.5, value))`. -/
def cruiseThrottleClamp (value : ℚ) : ℚ :=
  max 0 (min 0.5 value)

/-- estimateThrottleFromSensors (app.js): throttle estimated from the forward
acceleration `accelY` and the GPS speed. -/
def estimateThrottleFromSensors (hasGPS hasAccelerometer : Bool)
    (accelY gpsSpeed accelThreshold accelMax cruiseThrottle : ℚ) : ℚ :=
  if ¬ hasGPS ∧ ¬ hasAccelerometer then 0
  else if accelY > accelThreshold then
    min 1 (max 0 ((accelY - accelThreshold) / (accelMax - accelThreshold)))
  else if accelY < -accelThreshold ∧ gpsSpeed > 1 then 0
  else if gpsSpeed < 1 ∧ |accelY| < accelThreshold then 0
  else cruiseThrottle

/- ---------------------------------------------------------------------- -/
/- app.js : physics constants, vehicle configuration, torque model         -/
/- ---------------------------------------------------------------------- -/

noncomputable section

/-- CONFIG.physics.AIR_DENSITY (kg/m^3). -/
def AIR_DENSITY : ℝ := 1.225

/-- CONFIG.physics.GRAVITY (m/s^2). -/
def GRAVITY : ℝ := 9.81

/-- Vehicle configuration (the fields of `vehicleState` that the physics
uses). -/
structure Vehicle where
  gearRatios : List ℝ
  finalDrive : ℝ
  wheelRadius : ℝ
  mass : ℝ
  dragCoef : ℝ
  frontalArea : ℝ
  rollingResistance : ℝ
  drivelineEfficiency : ℝ

/-- CONFIG.vehicle: the default vehicle configuration. -/
def defaultVehicle : Vehicle :=
  { gearRatios := [3.62, 2.19, 1.62, 1.27, 1.03, 0.82]
    finalDrive := 3.42
    wheelRadius := 0.33
    mass := 1350
    dragCoef := 0.30
    frontalArea := 2.1
    rollingResistance := 0.012
    drivelineEfficiency := 0.92 }

/-- getOverallRatio (app.js): gear ratio times final drive, `0` in neutral;
a missing table entry reads as `0`. -/
def getOverallRatio (gear : ℤ) (v : Vehicle) : ℝ :=
  if gear ≤ 0 then 0 else v.gearRatios.getD (gear - 1).toNat 0 * v.finalDrive

/-- The normalized rpm in calcEngineTorque:
`Math.min(1, Math.max(0, (rpm - idleRpm) / rpmSpan))` with
`rpmSpan = Math.max(1, redlineRpm - idleRpm)`. -/
def torqueNorm (idleRpm redlineRpm rpm : ℝ) : ℝ :=
  min 1 (max 0 ((rpm - idleRpm) / max 1 (redlineRpm - idleRpm)))

/-- The clipped-parabola shape in calcEngineTorque:
`Math.max(0, 1 - Math.pow((norm - 0.60) / 0.40, 2))`. -/
def torqueShape (idleRpm redlineRpm rpm : ℝ) : ℝ :=
  max 0 (1 - ((torqueNorm idleRpm redlineRpm rpm - 0.60) / 0.40) ^ 2)

/-- calcEngineTorque (app.js): `280 * shape * (0.15 + 0.85 * throttle)`. -/
def calcEngineTorque (idleRpm redlineRpm rpm throttle : ℝ) : ℝ :=
  280 * torqueShape idleRpm redlineRpm rpm * (0.15 + 0.85 * throttle)

/- ---------------------------------------------------------------------- -/
/- app.js : parameter validation and clamps                                -/
/- ---------------------------------------------------------------------- -/

/-- `Math.max(lo, Math.min(hi, value))`. -/
def clampVal (lo hi value : ℝ) : ℝ := max lo (min hi value)

/-- The redline fix-up of updateParamsFromUI: if `redlineRpm <= idleRpm`,
force `redlineRpm = idleRpm + 1000`. -/
def ensureRedlineAboveIdle (idleRpm redlineRpm : ℝ) : ℝ :=
  if redlineRpm ≤ idleRpm then idleRpm + 1000 else redlineRpm

/-- updateParamsFromUI (app.js), restricted to the idle/redline pair: the UI
values are clamped to CONFIG.constraints and then the redline fix-up runs.
Returns `(idleRpm, redlineRpm)`. -/
def validateEngineParams (idleIn redlineIn : ℝ) : ℝ × ℝ :=
  let idleRpm := clampVal 500 2000 idleIn
  let redlineRpm := clampVal 3000 12000 redlineIn
  (idleRpm, ensureRedlineAboveIdle idleRpm redlineRpm)

/-- The clamp applied to `currentRpm` at the end of each physics tick and on
gear-change snaps: `Math.max(idleRpm * 0.75, Math.min(rpm, redlineRpm * 1.05))`. -/
def clampRpm (idleRpm redlineRpm rpm : ℝ) : ℝ :=
  max (idleRpm * 0.75) (min rpm (redlineRpm * 1.05))

/-- adjustRpmForGearChange (app.js): while playing and moving
(`speed >= 0.1`) and not in neutral, snap `currentRpm` to the RPM that keeps
the current speed with the new overall ratio, clamped to the usual bounds. -/
def adjustRpmForGearChange (isPlaying : Bool)
    (speed newOverallRatio wheelRadius idleRpm redlineRpm currentRpm : ℝ) : ℝ :=
  if ¬ isPlaying ∨ speed < 0.1 then currentRpm
  else if newOverallRatio = 0 then currentRpm
  else
    clampRpm idleRpm redlineRpm
      (speed * newOverallRatio * 60 / (2 * Real.pi * wheelRadius))

/-- The real-vehicle-mode RPM override clamp (app.js, update):
`Math.max(idleRpm, Math.min(rpmFromSpeed, redlineRpm * 1.05))`. -/
def realVehicleRpmClamp (idleRpm redlineRpm rpmFromSpeed : ℝ) : ℝ :=
  max idleRpm (min rpmFromSpeed (redlineRpm * 1.05))

/- ---------------------------------------------------------------------- -/
/- app.js : the RPM integrator                                             -/
/- ---------------------------------------------------------------------- -/

/-- `freeTargetRpm = idleRpm + (redlineRpm - idleRpm) * currentThrottle`. -/
def freeTargetRpmOf (idleRpm redlineRpm throttle : ℝ) : ℝ :=
  idleRpm + (redlineRpm - idleRpm) * throttle

/-- The target RPM of the integrator (app.js, update): the free-rev target
reduced by the internal-resistance factor
`0.15 * Math.pow(currentRpm / redlineRpm, 1.5)` (embedded as `x * √x`),
floored at idle. -/
def targetRpmOf (idleRpm redlineRpm currentRpm throttle : ℝ) : ℝ :=
  let rpmNormalized := currentRpm / redlineRpm
  let internalResistance := rpmNormalized * Real.sqrt rpmNormalized
  let resistanceFactor := 0.15 * internalResistance
  max idleRpm
    (freeTargetRpmOf idleRpm redlineRpm throttle * (1 - resistanceFactor * (1 - throttle)))

/-- The direction- and load-dependent effective inertia (app.js, update). -/
def effectiveInertiaOf (inertia load : ℝ) (isCoupled : Bool)
    (targetRpm currentRpm : ℝ) : ℝ :=
  if targetRpm > currentRpm then
    inertia + (1 - inertia) * min 0.9 (load * 0.7)
  else
    inertia + (1 - inertia) * (1 - (if isCoupled then load * 0.3 else 0)) * 0.5

/-- The RPM blend
`currentRpm * effectiveInertia + targetRpm * (1 - effectiveInertia)`. -/
def rpmBlend (inertia load : ℝ) (isCoupled : Bool) (targetRpm currentRpm : ℝ) : ℝ :=
  currentRpm * effectiveInertiaOf inertia load isCoupled targetRpm currentRpm
    + targetRpm * (1 - effectiveInertiaOf inertia load isCoupled targetRpm currentRpm)

/-- Iterated application of the RPM blend at a fixed target and load. -/
def rpmIter (inertia load : ℝ) (isCoupled : Bool) (targetRpm : ℝ) (rpm0 : ℝ) :
    ℕ → ℝ
  | 0 => rpm0
  | n + 1 => rpmBlend inertia load isCoupled targetRpm
      (rpmIter inertia load isCoupled targetRpm rpm0 n)

/- ---------------------------------------------------------------------- -/
/- app.js : the per-frame physics tick                                     -/
/- ---------------------------------------------------------------------- -/

/-- The mutable engine/vehicle scalars the physics tick reads and writes. -/
structure PhysState where
  currentRpm : ℝ
  currentThrottle : ℝ
  targetThrottle : ℝ
  throttleResponse : ℝ
  speed : ℝ
  gear : ℤ
  roadLoad : ℝ
  load : ℝ
  idleRpm : ℝ
  redlineRpm : ℝ
  inertia : ℝ

/-- The tick's throttle update:
`currentThrottle += (targetThrottle - currentThrottle) * throttleResponse`. -/
def tickThrottle (s : PhysState) : ℝ :=
  s.currentThrottle + (s.targetThrottle - s.currentThrottle) * s.throttleResponse

/-- The resistive force: aero drag + rolling resistance + grade force
(app.js, update). -/
def resistiveForceOf (v : Vehicle) (speed roadLoad : ℝ) : ℝ :=
  0.5 * AIR_DENSITY * v.dragCoef * v.frontalArea * speed * speed
    + v.mass * GRAVITY * v.rollingResistance
    + v.mass * GRAVITY * roadLoad * 0.25

/-- The tractive force at the wheels: engine torque through the drivetrain,
`0` when declutched (app.js, update). -/
def tickTractiveForce (v : Vehicle) (s : PhysState) : ℝ :=
  let overallRatio := getOverallRatio s.gear v
  if overallRatio > 0 then
    calcEngineTorque s.idleRpm s.redlineRpm s.currentRpm (tickThrottle s)
      * overallRatio * v.drivelineEfficiency / v.wheelRadius
  else 0

/-- The longitudinal acceleration computed by the tick:
`(tractiveForce - resistiveForce) / mass` when coupled,
`-resistiveForce / mass` when declutched. -/
def tickAccel (v : Vehicle) (s : PhysState) : ℝ :=
  let overallRatio := getOverallRatio s.gear v
  let resistiveForce := resistiveForceOf v s.speed s.roadLoad
  let netForce :=
    if overallRatio > 0 then tickTractiveForce v s - resistiveForce
    else -resistiveForce
  netForce / v.mass

/-- The engine load computed by the tick: required-over-available torque plus
a bounded inertial term, pinned to `0.05` when declutched (app.js, update). -/
def tickLoad (v : Vehicle) (s : PhysState) : ℝ :=
  let overallRatio := getOverallRatio s.gear v
  let resistiveForce := resistiveForceOf v s.speed s.roadLoad
  let accel := tickAccel v s
  let maxTorqueAtCurrentRpm := calcEngineTorque s.idleRpm s.redlineRpm s.currentRpm 1
  let requiredTorque :=
    if overallRatio > 0 then
      resistiveForce * v.wheelRadius / (overallRatio * v.drivelineEfficiency)
    else 0
  let resistanceLoad :=
    if maxTorqueAtCurrentRpm > 0 then min 1 (requiredTorque / maxTorqueAtCurrentRpm)
    else 0
  let inertialLoad :=
    if overallRatio > 0 ∧ accel > 0 then
      min 0.35 (v.mass * |accel| * v.wheelRadius
        / (maxTorqueAtCurrentRpm * overallRatio * v.drivelineEfficiency))
    else 0
  if ¬ overallRatio > 0 then 0.05
  else max 0 (min 1 (resistanceLoad + inertialLoad))

/-- One physics tick (app.js, update), real-vehicle mode off: updates
throttle, load and RPM, then derives the speed directly from the new RPM and
the overall ratio (`0` when declutched). -/
def updateTick (v : Vehicle) (s : PhysState) : PhysState :=
  let currentThrottle := tickThrottle s
  let overallRatio := getOverallRatio s.gear v
  let load := tickLoad v s
  let targetRpm := targetRpmOf s.idleRpm s.redlineRpm s.currentRpm currentThrottle
  let rpm1 := rpmBlend s.inertia load (decide (overallRatio > 0)) targetRpm s.currentRpm
  let rpm2 := clampRpm s.idleRpm s.redlineRpm rpm1
  let speed2 :=
    if overallRatio > 0 then rpm2 * 2 * Real.pi * v.wheelRadius / (overallRatio * 60)
    else 0
  { s with
      currentRpm := rpm2
      currentThrottle := currentThrottle
      load := load
      speed := speed2 }

/- ---------------------------------------------------------------------- -/
/- engine-processor.js : saturation, post filter, output gain, channels    -/
/- ---------------------------------------------------------------------- -/

/-- The distortion drive
`0.9 + 2.2 * throttle + 0.35 * vtecBlend + 0.28 * fa24Mode`. -/
def driveOf (throttle vtecBlend fa24Mode : ℝ) : ℝ :=
  0.9 + 2.2 * throttle + 0.35 * vtecBlend + 0.28 * fa24Mode

/-- The output stage of one sample (engine-processor.js): tanh saturation,
post low-pass blended 82/18 with the saturated signal, and the master gain
`0.34`.  Returns `(sample, new post-LPF state)`. -/
def outputStage (throttle drive signal postLpf : ℝ) : ℝ × ℝ :=
  let saturated := Real.tanh (drive * signal)
  let postLpfAlpha := 0.12 + 0.10 * throttle
  let post2 := postLpf + postLpfAlpha * (saturated - postLpf)
  ((0.82 * post2 + 0.18 * saturated) * 0.34, post2)

/-- Per-sample synthesizer inputs feeding the output stage; `preSignal` is the
signal entering the distortion stage (harmonics, noise, resonances). -/
structure SampleIn where
  throttle : ℝ
  vtecBlend : ℝ
  fa24Mode : ℝ
  preSignal : ℝ

/-- The sample block produced by threading the post-LPF state through the
output stage, as the per-sample loop of EngineProcessor.process does. -/
def renderSamples (postLpf : ℝ) : List SampleIn → List ℝ
  | [] => []
  | x :: rest =>
    let r := outputStage x.throttle (driveOf x.throttle x.vtecBlend x.fa24Mode)
      x.preSignal postLpf
    r.1 :: renderSamples r.2 rest

/-- The channel-copy loop at the end of EngineProcessor.process: every output
channel receives the one synthesized channel. -/
def duplicateChannels (numChannels : ℕ) (channel : List ℝ) : List (List ℝ) :=
  List.replicate numChannels channel

end

/- ---------------------------------------------------------------------- -/
/- Theorems : harmonic anti-aliasing (C5)                                  -/
/- ---------------------------------------------------------------------- -/

/-- Every index the harmonic loop processes has its frequency below Nyquist:
the `break` can only leave sub-Nyquist indices in the list. -/
lemma harmLoopFrom_sound (f nyquist : ℚ) :
    ∀ (fuel k0 k : ℕ), k ∈ harmLoopFrom f nyquist k0 fuel → (k : ℚ) * f < nyquist := by
  intro fuel
  induction fuel with
  | zero =>
    intro k0 k h
    simp [harmLoopFrom] at h
  | succ n ih =>
    intro k0 k h
    unfold harmLoopFrom at h
    split at h
    · simp at h
    · rename_i hlt
      rcases List.mem_cons.mp h with rfl | h2
      · exact lt_of_not_ge hlt
      · exact ih _ _ h2

/-- Conversely, with a nonnegative fundamental every in-range sub-Nyquist
index is processed: the `break` only skips indices at or above Nyquist. -/
lemma harmLoopFrom_complete (f nyquist : ℚ) (hf : 0 ≤ f) :
    ∀ (fuel k0 k : ℕ), k0 ≤ k → k < k0 + fuel → (k : ℚ) * f < nyquist →
      k ∈ harmLoopFrom f nyquist k0 fuel := by
  intro fuel
  induction fuel with
  | zero =>
    intro k0 k h1 h2 _
    omega
  | succ n ih =>
    intro k0 k h1 h2 h3
    have hk0 : (k0 : ℚ) * f < nyquist := by
      refine lt_of_le_of_lt ?_ h3
      have : (k0 : ℚ) ≤ (k : ℚ) := by exact_mod_cast h1
      exact mul_le_mul_of_nonneg_right this hf
    unfold harmLoopFrom
    rw [if_neg (not_le.mpr hk0)]
    rcases eq_or_lt_of_le h1 with rfl | hlt
    · exact List.mem_cons_self _ _
    · exact List.mem_cons_of_mem _ (ih (k0 + 1) k hlt (by omega) h3)

/-- C5: the harmonic synthesis loop never contributes a harmonic at or above
Nyquist — every processed index `k` satisfies `k * f_fire < nyquist` — and,
for a nonnegative fundamental, exactly the sub-Nyquist indices among
`1..24` are processed (the `break` skips an index only together with all
later, higher-frequency ones). -/
theorem c5_no_aliased_harmonics :
    (∀ rpm ncyl jitter drift nyquist k,
        k ∈ processedHarmonics (fFire rpm ncyl jitter drift) nyquist →
        (k : ℚ) * fFire rpm ncyl jitter drift < nyquist) ∧
    (∀ (f nyquist : ℚ) (k : ℕ), 0 ≤ f → 1 ≤ k → k ≤ 24 → (k : ℚ) * f < nyquist →
        k ∈ processedHarmonics f nyquist) := by
  constructor
  · intro rpm ncyl jitter drift nyquist k h
    exact harmLoopFrom_sound _ _ 24 1 k h
  · intro f nyquist k hf h1 h24 hk
    exact harmLoopFrom_complete f nyquist hf 24 1 k h1 (by omega) hk

/-- Witness for C5 at concrete inputs: with `f_fire = 2` and a 48 kHz Nyquist
of 24000, harmonic 24 is processed, and harmonic 1 of the default
4-cylinder engine at 3000 rpm (`f_fire = 100`) is below Nyquist. -/
theorem c5_no_aliased_harmonics_witness :
    ((0 : ℚ) ≤ 2 ∧ (24 : ℚ) * 2 < 24000) ∧
      24 ∈ processedHarmonics 2 24000 ∧
      (1 : ℚ) * fFire 3000 4 1 1 < 24000 :=
  ⟨by norm_num,
    c5_no_aliased_harmonics.2 2 24000 24 (by norm_num) (by norm_num) (by norm_num)
      (by norm_num),
    c5_no_aliased_harmonics.1 3000 4 1 1 24000 1
      (c5_no_aliased_harmonics.2 (fFire 3000 4 1 1) 24000 1
        (by norm_num [fFire]) (by norm_num) (by norm_num) (by norm_num [fFire]))⟩

/- ---------------------------------------------------------------------- -/
/- Theorems : rev limiter (C2)                                             -/
/- ---------------------------------------------------------------------- -/

/-- The rev limiter step reads only the cycle counter, not the active flag. -/
lemma revLimiterStep_congr (redlineRpm rpm : ℚ) (s t : RevLimiterState)
    (h : s.cycle = t.cycle) :
    revLimiterStep redlineRpm rpm s = revLimiterStep redlineRpm rpm t := by
  unfold revLimiterStep
  rw [h]

/-- The rev limiter step above the threshold, with the branch resolved. -/
lemma revLimiterStep_above (redlineRpm rpm : ℚ) (h : rpm > redlineRpm * 0.98)
    (st : RevLimiterState) :
    revLimiterStep redlineRpm rpm st
      = (⟨if st.cycle + 0.15 > 1 then 0 else st.cycle + 0.15, true⟩,
          if (if st.cycle + 0.15 > 1 then 0 else st.cycle + 0.15) < 0.3
          then 0.05 else 1) := by
  unfold revLimiterStep
  rw [if_pos h]

/-- Seven samples above the threshold bring a zero cycle counter back to
zero (0.15 steps: 0.15, 0.30, …, 0.90, then 1.05 wraps to 0). -/
lemma revLimiterIter_seven (redlineRpm rpm : ℚ) (h : rpm > redlineRpm * 0.98)
    (b : Bool) :
    revLimiterIter redlineRpm rpm ⟨0, b⟩ 7 = ⟨0, true⟩ := by
  simp only [revLimiterIter, revLimiterStep_above redlineRpm rpm h]
  norm_num

/-- Above the threshold, the cycle counter sequence started at the
post-reset state is periodic with period 7. -/
lemma revLimiterIter_cycle_add_seven (redlineRpm rpm : ℚ)
    (h : rpm > redlineRpm * 0.98) :
    ∀ n, (revLimiterIter redlineRpm rpm ⟨0, false⟩ (n + 7)).cycle
        = (revLimiterIter redlineRpm rpm ⟨0, false⟩ n).cycle := by
  intro n
  induction n with
  | zero =>
    rw [Nat.zero_add, revLimiterIter_seven redlineRpm rpm h false]
    rfl
  | succ n ih =>
    have e : n + 1 + 7 = (n + 7) + 1 := by omega
    rw [e]
    show (revLimiterStep redlineRpm rpm (revLimiterIter redlineRpm rpm ⟨0, false⟩ (n + 7))).1.cycle
        = (revLimiterStep redlineRpm rpm (revLimiterIter redlineRpm rpm ⟨0, false⟩ n)).1.cycle
    rw [revLimiterStep_congr redlineRpm rpm _ _ ih]

/-- C2: per-sample rev limiter behaviour.  Above `redline × 0.98` the cycle
counter advances by 0.15 and wraps to 0 past 1.0, the active flag is set, and
the cut factor is the near-silent floor 0.05 exactly while the counter is
below 0.3 and 1.0 otherwise; at or below the threshold the state resets and
no attenuation is applied on that very sample.  From the post-reset state the
cut sequence under constant over-threshold rpm is periodic with period 7,
attenuating some samples (e.g. sample 0) and passing others (e.g. sample 1). -/
theorem c2_rev_limiter_gating (redlineRpm rpm : ℚ) (st : RevLimiterState) :
    (rpm > redlineRpm * 0.98 →
      (revLimiterStep redlineRpm rpm st).1.cycle
          = (if st.cycle + 0.15 > 1 then 0 else st.cycle + 0.15) ∧
      (revLimiterStep redlineRpm rpm st).1.active = true ∧
      (revLimiterStep redlineRpm rpm st).2
          = (if (revLimiterStep redlineRpm rpm st).1.cycle < 0.3 then 0.05 else 1)) ∧
    (rpm ≤ redlineRpm * 0.98 →
      (revLimiterStep redlineRpm rpm st).1 = ⟨0, false⟩ ∧
      (revLimiterStep redlineRpm rpm st).2 = 1) ∧
    (rpm > redlineRpm * 0.98 →
      (∀ n, (revLimiterIter redlineRpm rpm ⟨0, false⟩ (n + 7)).cycle
          = (revLimiterIter redlineRpm rpm ⟨0, false⟩ n).cycle) ∧
      (∀ n, revLimiterCutSeq redlineRpm rpm ⟨0, false⟩ (n + 7)
          = revLimiterCutSeq redlineRpm rpm ⟨0, false⟩ n) ∧
      revLimiterCutSeq redlineRpm rpm ⟨0, false⟩ 0 = 0.05 ∧
      revLimiterCutSeq redlineRpm rpm ⟨0, false⟩ 1 = 1) := by
  refine ⟨?_, ?_, ?_⟩
  · intro h
    refine ⟨?_, ?_, ?_⟩ <;> simp [revLimiterStep, h]
  · intro h
    have h2 : ¬ rpm > redlineRpm * 0.98 := not_lt.mpr h
    exact ⟨by simp [revLimiterStep, h2], by simp [revLimiterStep, h2]⟩
  · intro h
    refine ⟨revLimiterIter_cycle_add_seven redlineRpm rpm h, ?_, ?_, ?_⟩
    · intro n
      unfold revLimiterCutSeq
      rw [revLimiterStep_congr redlineRpm rpm _ _
        (revLimiterIter_cycle_add_seven redlineRpm rpm h n)]
    · simp only [revLimiterCutSeq, revLimiterIter,
        revLimiterStep_above redlineRpm rpm h]
      norm_num
    · simp only [revLimiterCutSeq, revLimiterIter,
        revLimiterStep_above redlineRpm rpm h]
      norm_num

/-- Witness for C2 at redline 7000 and rpm 6950 (above the 6860 threshold):
the first post-reset sample is attenuated to 0.05. -/
theorem c2_rev_limiter_gating_witness :
    ((6950 : ℚ) > 7000 * 0.98) ∧
      revLimiterCutSeq 7000 6950 ⟨0, false⟩ 0 = 0.05 :=
  ⟨by norm_num,
    ((c2_rev_limiter_gating 7000 6950 ⟨0, false⟩).2.2 (by norm_num)).2.2.1⟩

/- ---------------------------------------------------------------------- -/
/- Theorems : sensor throttle estimation (C10)                             -/
/- ---------------------------------------------------------------------- -/

/-- C10: estimateThrottleFromSensors always returns a value in [0, 1] when
the cruise throttle respects the bound its input handler enforces; it returns
exactly 0 with no sensor data, 0 in the decelerating-while-moving and
stationary branches, the cruise throttle in the cruise branch, and the input
handler keeps the cruise throttle in [0, 0.5]. -/
theorem c10_sensor_throttle_range :
    (∀ (hasGPS hasAccelerometer : Bool)
        (accelY gpsSpeed accelThreshold accelMax cruiseThrottle : ℚ),
        0 ≤ cruiseThrottle → cruiseThrottle ≤ 0.5 →
        0 ≤ estimateThrottleFromSensors hasGPS hasAccelerometer accelY gpsSpeed
              accelThreshold accelMax cruiseThrottle ∧
        estimateThrottleFromSensors hasGPS hasAccelerometer accelY gpsSpeed
              accelThreshold accelMax cruiseThrottle ≤ 1) ∧
    (∀ accelY gpsSpeed accelThreshold accelMax cruiseThrottle,
        estimateThrottleFromSensors false false accelY gpsSpeed
          accelThreshold accelMax cruiseThrottle = 0) ∧
    (∀ (hasGPS hasAccelerometer : Bool)
        (accelY gpsSpeed accelThreshold accelMax cruiseThrottle : ℚ),
        (hasGPS ∨ hasAccelerometer) → ¬ accelY > accelThreshold →
        accelY < -accelThreshold → gpsSpeed > 1 →
        estimateThrottleFromSensors hasGPS hasAccelerometer accelY gpsSpeed
          accelThreshold accelMax cruiseThrottle = 0) ∧
    (∀ (hasGPS hasAccelerometer : Bool)
        (accelY gpsSpeed accelThreshold accelMax cruiseThrottle : ℚ),
        (hasGPS ∨ hasAccelerometer) → ¬ accelY > accelThreshold →
        ¬ (accelY < -accelThreshold ∧ gpsSpeed > 1) →
        gpsSpeed < 1 → |accelY| < accelThreshold →
        estimateThrottleFromSensors hasGPS hasAccelerometer accelY gpsSpeed
          accelThreshold accelMax cruiseThrottle = 0) ∧
    (∀ (hasGPS hasAccelerometer : Bool)
        (accelY gpsSpeed accelThreshold accelMax cruiseThrottle : ℚ),
        (hasGPS ∨ hasAccelerometer) → ¬ accelY > accelThreshold →
        ¬ (accelY < -accelThreshold ∧ gpsSpeed > 1) →
        ¬ (gpsSpeed < 1 ∧ |accelY| < accelThreshold) →
        estimateThrottleFromSensors hasGPS hasAccelerometer accelY gpsSpeed
          accelThreshold accelMax cruiseThrottle = cruiseThrottle) ∧
    (∀ value : ℚ, 0 ≤ cruiseThrottleClamp value ∧ cruiseThrottleClamp value ≤ 0.5) := by
  have hsens : ∀ (hasGPS hasAccelerometer : Bool),
      (hasGPS ∨ hasAccelerometer) → ¬ (¬ hasGPS ∧ ¬ hasAccelerometer) := by
    intro a b h hc
    rcases h with h | h
    · exact hc.1 h
    · exact hc.2 h
  refine ⟨?_, ?_, ?_, ?_, ?_, ?_⟩
  · intro hasGPS hasAccelerometer accelY gpsSpeed accelThreshold accelMax
      cruiseThrottle h0 h05
    unfold estimateThrottleFromSensors
    split_ifs with h1 h2 h3 h4
    · exact ⟨le_refl 0, by norm_num⟩
    · constructor
      · exact le_min (by norm_num) (le_max_left 0 _)
      · exact min_le_left 1 _
    · exact ⟨le_refl 0, by norm_num⟩
    · exact ⟨le_refl 0, by norm_num⟩
    · exact ⟨h0, le_trans h05 (by norm_num)⟩
  · intro accelY gpsSpeed accelThreshold accelMax cruiseThrottle
    unfold estimateThrottleFromSensors
    rw [if_pos]
    exact ⟨by simp, by simp⟩
  · intro hasGPS hasAccelerometer accelY gpsSpeed accelThreshold accelMax
      cruiseThrottle hs h1 h2 h3
    unfold estimateThrottleFromSensors
    rw [if_neg (hsens _ _ hs), if_neg h1, if_pos ⟨h2, h3⟩]
  · intro hasGPS hasAccelerometer accelY gpsSpeed accelThreshold accelMax
      cruiseThrottle hs h1 h2 h3 h4
    unfold estimateThrottleFromSensors
    rw [if_neg (hsens _ _ hs), if_neg h1, if_neg h2, if_pos ⟨h3, h4⟩]
  · intro hasGPS hasAccelerometer accelY gpsSpeed accelThreshold accelMax
      cruiseThrottle hs h1 h2 h3
    unfold estimateThrottleFromSensors
    rw [if_neg (hsens _ _ hs), if_neg h1, if_neg h2, if_neg h3]
  · intro value
    unfold cruiseThrottleClamp
    exact ⟨le_max_left 0 _, max_le (by norm_num) (min_le_left _ _)⟩

/-- Witness for C10: with GPS present, forward acceleration 2 above threshold
0.5 and scale 5, the estimated throttle is within [0, 1]. -/
theorem c10_sensor_throttle_range_witness :
    ((0 : ℚ) ≤ 0.15 ∧ (0.15 : ℚ) ≤ 0.5) ∧
      0 ≤ estimateThrottleFromSensors true false 2 10 0.5 5 0.15 ∧
      estimateThrottleFromSensors true false 2 10 0.5 5 0.15 ≤ 1 :=
  ⟨by norm_num,
    c10_sensor_throttle_range.1 true false 2 10 0.5 5 0.15 (by norm_num) (by norm_num)⟩

/- ---------------------------------------------------------------------- -/
/- Theorems : engine-parameter invariants (C8)                             -/
/- ---------------------------------------------------------------------- -/

/-- The tick writes `currentRpm` through the final clamp (definitional
unfolding of updateTick). -/
lemma updateTick_currentRpm (v : Vehicle) (s : PhysState) :
    (updateTick v s).currentRpm
      = clampRpm s.idleRpm s.redlineRpm
          (rpmBlend s.inertia (tickLoad v s)
            (decide (getOverallRatio s.gear v > 0))
            (targetRpmOf s.idleRpm s.redlineRpm s.currentRpm (tickThrottle s))
            s.currentRpm) :=
  rfl

/-- The clamp keeps any value inside `[idle × 0.75, redline × 1.05]` as long
as the window is nonempty. -/
lemma clampRpm_mem (idleRpm redlineRpm x : ℝ) (h0 : 0 ≤ idleRpm)
    (h1 : idleRpm ≤ redlineRpm) :
    idleRpm * 0.75 ≤ clampRpm idleRpm redlineRpm x ∧
    clampRpm idleRpm redlineRpm x ≤ redlineRpm * 1.05 := by
  unfold clampRpm
  constructor
  · exact le_max_left _ _
  · exact max_le (by nlinarith) (min_le_right _ _)

/-- C8: the parameter invariants.  Parameter validation re-establishes
`redlineRpm > idleRpm` (forcing `idleRpm + 1000` exactly when violated), and
`currentRpm` lands in `[idle × 0.75, redline × 1.05]` after every physics
tick, after every gear-change snap (which also preserves the invariant when
its guards skip the snap), and after every real-vehicle-mode RPM override. -/
theorem c8_state_invariants :
    (∀ idleIn redlineIn,
        (validateEngineParams idleIn redlineIn).1
          < (validateEngineParams idleIn redlineIn).2) ∧
    (∀ idleRpm redlineRpm : ℝ,
        idleRpm < ensureRedlineAboveIdle idleRpm redlineRpm ∧
        (redlineRpm ≤ idleRpm →
          ensureRedlineAboveIdle idleRpm redlineRpm = idleRpm + 1000)) ∧
    (∀ (v : Vehicle) (s : PhysState), 0 ≤ s.idleRpm → s.idleRpm ≤ s.redlineRpm →
        s.idleRpm * 0.75 ≤ (updateTick v s).currentRpm ∧
        (updateTick v s).currentRpm ≤ s.redlineRpm * 1.05) ∧
    (∀ (isPlaying : Bool) (speed ratio wheelRadius idleRpm redlineRpm cur : ℝ),
        0 ≤ idleRpm → idleRpm ≤ redlineRpm →
        idleRpm * 0.75 ≤ cur → cur ≤ redlineRpm * 1.05 →
        idleRpm * 0.75
            ≤ adjustRpmForGearChange isPlaying speed ratio wheelRadius idleRpm
                redlineRpm cur ∧
        adjustRpmForGearChange isPlaying speed ratio wheelRadius idleRpm
            redlineRpm cur ≤ redlineRpm * 1.05) ∧
    (∀ idleRpm redlineRpm rpmFromSpeed : ℝ, 0 ≤ idleRpm → idleRpm ≤ redlineRpm →
        idleRpm * 0.75 ≤ realVehicleRpmClamp idleRpm redlineRpm rpmFromSpeed ∧
        realVehicleRpmClamp idleRpm redlineRpm rpmFromSpeed
          ≤ redlineRpm * 1.05) := by
  have hens : ∀ idleRpm redlineRpm : ℝ,
      idleRpm < ensureRedlineAboveIdle idleRpm redlineRpm ∧
      (redlineRpm ≤ idleRpm →
        ensureRedlineAboveIdle idleRpm redlineRpm = idleRpm + 1000) := by
    intro idleRpm redlineRpm
    unfold ensureRedlineAboveIdle
    constructor
    · split_ifs with h
      · linarith
      · exact lt_of_not_ge h
    · intro h
      rw [if_pos h]
  refine ⟨?_, hens, ?_, ?_, ?_⟩
  · intro idleIn redlineIn
    exact (hens _ _).1
  · intro v s h0 h1
    rw [updateTick_currentRpm]
    exact clampRpm_mem _ _ _ h0 h1
  · intro isPlaying speed ratio wheelRadius idleRpm redlineRpm cur h0 h1 hlo hhi
    unfold adjustRpmForGearChange
    split_ifs with hg hn
    · exact ⟨hlo, hhi⟩
    · exact ⟨hlo, hhi⟩
    · exact clampRpm_mem _ _ _ h0 h1
  · intro idleRpm redlineRpm rpmFromSpeed h0 h1
    unfold realVehicleRpmClamp
    constructor
    · exact le_trans (by nlinarith) (le_max_left _ _)
    · exact max_le (by nlinarith) (min_le_right _ _)

/-- Witness for C8: the default parameters (idle 900, redline 7000) and a
concrete tick state stay inside the invariant window. -/
theorem c8_state_invariants_witness :
    ((0 : ℝ) ≤ 900 ∧ (900 : ℝ) ≤ 7000) ∧
      (900 : ℝ) * 0.75 ≤ realVehicleRpmClamp 900 7000 2985 ∧
      realVehicleRpmClamp 900 7000 2985 ≤ 7000 * 1.05 :=
  ⟨by norm_num,
    c8_state_invariants.2.2.2.2 900 7000 2985 (by norm_num) (by norm_num)⟩

/- ---------------------------------------------------------------------- -/
/- Theorems : torque curve (C6)                                            -/
/- ---------------------------------------------------------------------- -/

/-- The normalized rpm is monotone in rpm. -/
lemma torqueNorm_mono (idleRpm redlineRpm r1 r2 : ℝ) (h : r1 ≤ r2) :
    torqueNorm idleRpm redlineRpm r1 ≤ torqueNorm idleRpm redlineRpm r2 := by
  unfold torqueNorm
  have hspan : (0 : ℝ) < max 1 (redlineRpm - idleRpm) :=
    lt_of_lt_of_le one_pos (le_max_left _ _)
  have hdiv : (r1 - idleRpm) / max 1 (redlineRpm - idleRpm)
      ≤ (r2 - idleRpm) / max 1 (redlineRpm - idleRpm) :=
    (div_le_div_iff_of_pos_right hspan).mpr (by linarith)
  exact min_le_min le_rfl (max_le_max le_rfl hdiv)

/-- With at least 1 rpm of span, the span clamp is inactive. -/
lemma torqueSpan_eq (idleRpm redlineRpm : ℝ) (hspan : idleRpm + 1 ≤ redlineRpm) :
    max 1 (redlineRpm - idleRpm) = redlineRpm - idleRpm :=
  max_eq_right (by linarith)

/-- Below the 60 % point the normalized rpm is at most 0.6. -/
lemma torqueNorm_le_peak (idleRpm redlineRpm rpm : ℝ)
    (hspan : idleRpm + 1 ≤ redlineRpm)
    (h : rpm ≤ idleRpm + 0.6 * (redlineRpm - idleRpm)) :
    torqueNorm idleRpm redlineRpm rpm ≤ 0.6 := by
  unfold torqueNorm
  rw [torqueSpan_eq idleRpm redlineRpm hspan]
  have hpos : (0 : ℝ) < redlineRpm - idleRpm := by linarith
  have hdiv : (rpm - idleRpm) / (redlineRpm - idleRpm) ≤ 0.6 := by
    rw [div_le_iff₀ hpos]
    linarith
  refine le_trans (min_le_right _ _) (max_le (by norm_num) hdiv)

/-- Above the 60 % point the normalized rpm is at least 0.6. -/
lemma torqueNorm_ge_peak (idleRpm redlineRpm rpm : ℝ)
    (hspan : idleRpm + 1 ≤ redlineRpm)
    (h : idleRpm + 0.6 * (redlineRpm - idleRpm) ≤ rpm) :
    0.6 ≤ torqueNorm idleRpm redlineRpm rpm := by
  unfold torqueNorm
  rw [torqueSpan_eq idleRpm redlineRpm hspan]
  have hpos : (0 : ℝ) < redlineRpm - idleRpm := by linarith
  have hdiv : (0.6 : ℝ) ≤ (rpm - idleRpm) / (redlineRpm - idleRpm) := by
    rw [le_div_iff₀ hpos]
    linarith
  exact le_min (by norm_num) (le_trans hdiv (le_max_right _ _))

/-- At the 60 % point the normalized rpm is exactly 0.6. -/
lemma torqueNorm_peak (idleRpm redlineRpm : ℝ) (hspan : idleRpm + 1 ≤ redlineRpm) :
    torqueNorm idleRpm redlineRpm (idleRpm + 0.6 * (redlineRpm - idleRpm)) = 0.6 :=
  le_antisymm
    (torqueNorm_le_peak _ _ _ hspan le_rfl)
    (torqueNorm_ge_peak _ _ _ hspan le_rfl)

/-- The torque shape never exceeds 1. -/
lemma torqueShape_le_one (idleRpm redlineRpm rpm : ℝ) :
    torqueShape idleRpm redlineRpm rpm ≤ 1 := by
  unfold torqueShape
  refine max_le (by norm_num) ?_
  nlinarith [sq_nonneg ((torqueNorm idleRpm redlineRpm rpm - 0.60) / 0.40)]

/-- The torque shape is nonnegative. -/
lemma torqueShape_nonneg (idleRpm redlineRpm rpm : ℝ) :
    0 ≤ torqueShape idleRpm redlineRpm rpm :=
  le_max_left _ _

/-- The torque shape is monotone below the 60 % point. -/
lemma torqueShape_mono_below (idleRpm redlineRpm r1 r2 : ℝ)
    (hspan : idleRpm + 1 ≤ redlineRpm) (h12 : r1 ≤ r2)
    (h2 : r2 ≤ idleRpm + 0.6 * (redlineRpm - idleRpm)) :
    torqueShape idleRpm redlineRpm r1 ≤ torqueShape idleRpm redlineRpm r2 := by
  have hn12 := torqueNorm_mono idleRpm redlineRpm r1 r2 h12
  have hn2 := torqueNorm_le_peak idleRpm redlineRpm r2 hspan h2
  unfold torqueShape
  refine max_le_max le_rfl ?_
  set n1 := torqueNorm idleRpm redlineRpm r1
  set n2 := torqueNorm idleRpm redlineRpm r2
  have key : 0 ≤ (n2 - n1) * (1.2 - n1 - n2) :=
    mul_nonneg (by linarith) (by linarith)
  have hsq : (n2 - 0.60) ^ 2 ≤ (n1 - 0.60) ^ 2 := by nlinarith [key]
  have h16 : (0 : ℝ) < (0.40 : ℝ) ^ 2 := by norm_num
  rw [div_pow, div_pow]
  have := (div_le_div_iff_of_pos_right h16).mpr hsq
  linarith

/-- The torque shape is antitone above the 60 % point. -/
lemma torqueShape_anti_above (idleRpm redlineRpm r1 r2 : ℝ)
    (hspan : idleRpm + 1 ≤ redlineRpm)
    (h1 : idleRpm + 0.6 * (redlineRpm - idleRpm) ≤ r1) (h12 : r1 ≤ r2) :
    torqueShape idleRpm redlineRpm r2 ≤ torqueShape idleRpm redlineRpm r1 := by
  have hn12 := torqueNorm_mono idleRpm redlineRpm r1 r2 h12
  have hn1 := torqueNorm_ge_peak idleRpm redlineRpm r1 hspan h1
  unfold torqueShape
  refine max_le_max le_rfl ?_
  set n1 := torqueNorm idleRpm redlineRpm r1
  set n2 := torqueNorm idleRpm redlineRpm r2
  have key : 0 ≤ (n2 - n1) * (n1 + n2 - 1.2) :=
    mul_nonneg (by linarith) (by linarith)
  have hsq : (n1 - 0.60) ^ 2 ≤ (n2 - 0.60) ^ 2 := by nlinarith [key]
  have h16 : (0 : ℝ) < (0.40 : ℝ) ^ 2 := by norm_num
  rw [div_pow, div_pow]
  have := (div_le_div_iff_of_pos_right h16).mpr hsq
  linarith

/-- The torque shape is exactly 1 at the 60 % point. -/
lemma torqueShape_peak (idleRpm redlineRpm : ℝ) (hspan : idleRpm + 1 ≤ redlineRpm) :
    torqueShape idleRpm redlineRpm (idleRpm + 0.6 * (redlineRpm - idleRpm)) = 1 := by
  unfold torqueShape
  rw [torqueNorm_peak idleRpm redlineRpm hspan]
  norm_num

/-- C6: for a nondegenerate rpm span, calcEngineTorque is nonnegative,
rises up to the 60 % point of the span and falls beyond it, peaks there with
value `280 × (0.15 + 0.85 × throttle)` (15 % at closed throttle, 100 % at
full throttle), and closed throttle still yields strictly positive torque
wherever the parabola shape is positive. -/
theorem c6_torque_curve (idleRpm redlineRpm : ℝ)
    (hspan : idleRpm + 1 ≤ redlineRpm) :
    (∀ rpm throttle : ℝ, 0 ≤ throttle →
        0 ≤ calcEngineTorque idleRpm redlineRpm rpm throttle) ∧
    (∀ throttle r1 r2 : ℝ, 0 ≤ throttle → r1 ≤ r2 →
        r2 ≤ idleRpm + 0.6 * (redlineRpm - idleRpm) →
        calcEngineTorque idleRpm redlineRpm r1 throttle
          ≤ calcEngineTorque idleRpm redlineRpm r2 throttle) ∧
    (∀ throttle r1 r2 : ℝ, 0 ≤ throttle →
        idleRpm + 0.6 * (redlineRpm - idleRpm) ≤ r1 → r1 ≤ r2 →
        calcEngineTorque idleRpm redlineRpm r2 throttle
          ≤ calcEngineTorque idleRpm redlineRpm r1 throttle) ∧
    (∀ throttle : ℝ,
        calcEngineTorque idleRpm redlineRpm
            (idleRpm + 0.6 * (redlineRpm - idleRpm)) throttle
          = 280 * (0.15 + 0.85 * throttle)) ∧
    (∀ rpm throttle : ℝ, 0 ≤ throttle →
        calcEngineTorque idleRpm redlineRpm rpm throttle
          ≤ calcEngineTorque idleRpm redlineRpm
              (idleRpm + 0.6 * (redlineRpm - idleRpm)) throttle) ∧
    (∀ rpm : ℝ, 0 < torqueShape idleRpm redlineRpm rpm →
        0 < calcEngineTorque idleRpm redlineRpm rpm 0) := by
  have hthr : ∀ throttle : ℝ, 0 ≤ throttle → (0 : ℝ) ≤ 0.15 + 0.85 * throttle := by
    intro throttle h
    linarith
  have hpeak : ∀ throttle : ℝ,
      calcEngineTorque idleRpm redlineRpm
          (idleRpm + 0.6 * (redlineRpm - idleRpm)) throttle
        = 280 * (0.15 + 0.85 * throttle) := by
    intro throttle
    unfold calcEngineTorque
    rw [torqueShape_peak idleRpm redlineRpm hspan]
    ring
  refine ⟨?_, ?_, ?_, hpeak, ?_, ?_⟩
  · intro rpm throttle h
    exact mul_nonneg
      (mul_nonneg (by norm_num) (torqueShape_nonneg idleRpm redlineRpm rpm))
      (hthr throttle h)
  · intro throttle r1 r2 ht h12 h2
    unfold calcEngineTorque
    exact mul_le_mul_of_nonneg_right
      (mul_le_mul_of_nonneg_left
        (torqueShape_mono_below idleRpm redlineRpm r1 r2 hspan h12 h2)
        (by norm_num))
      (hthr throttle ht)
  · intro throttle r1 r2 ht h1 h12
    unfold calcEngineTorque
    exact mul_le_mul_of_nonneg_right
      (mul_le_mul_of_nonneg_left
        (torqueShape_anti_above idleRpm redlineRpm r1 r2 hspan h1 h12)
        (by norm_num))
      (hthr throttle ht)
  · intro rpm throttle ht
    rw [hpeak throttle]
    unfold calcEngineTorque
    have := torqueShape_le_one idleRpm redlineRpm rpm
    have := torqueShape_nonneg idleRpm redlineRpm rpm
    nlinarith
  · intro rpm hshape
    unfold calcEngineTorque
    nlinarith

/-- Witness for C6 with the default idle 900 and redline 7000: torque is
nonnegative at 3000 rpm and half throttle. -/
theorem c6_torque_curve_witness :
    ((900 : ℝ) + 1 ≤ 7000 ∧ (0 : ℝ) ≤ 0.5) ∧
      0 ≤ calcEngineTorque 900 7000 3000 0.5 :=
  ⟨by norm_num, (c6_torque_curve 900 7000 (by norm_num)).1 3000 0.5 (by norm_num)⟩

/- ---------------------------------------------------------------------- -/
/- Theorems : RPM integrator contraction (C7)                              -/
/- ---------------------------------------------------------------------- -/

/-- Bounds on the effective inertia: it never leaves
`[inertia, inertia + (1 - inertia) × 0.9]` in either branch. -/
lemma effectiveInertiaOf_bounds (inertia load : ℝ) (isCoupled : Bool)
    (targetRpm currentRpm : ℝ) (hi1 : inertia < 1) (hl0 : 0 ≤ load)
    (hl1 : load ≤ 1) :
    inertia ≤ effectiveInertiaOf inertia load isCoupled targetRpm currentRpm ∧
    effectiveInertiaOf inertia load isCoupled targetRpm currentRpm
      ≤ inertia + (1 - inertia) * 0.9 := by
  unfold effectiveInertiaOf
  have h1i : (0 : ℝ) ≤ 1 - inertia := by linarith
  split_ifs with hdir hcoup
  · have hmin0 : (0 : ℝ) ≤ min 0.9 (load * 0.7) :=
      le_min (by norm_num) (by nlinarith)
    have hmin9 : min 0.9 (load * 0.7) ≤ 0.9 := min_le_left _ _
    constructor
    · nlinarith
    · nlinarith
  · constructor
    · nlinarith
    · nlinarith
  · constructor
    · nlinarith
    · nlinarith

/-- The one-step error identity: the blend scales the distance to the target
by the effective inertia. -/
lemma rpmBlend_sub_target (inertia load : ℝ) (isCoupled : Bool)
    (targetRpm currentRpm : ℝ) :
    rpmBlend inertia load isCoupled targetRpm currentRpm - targetRpm
      = effectiveInertiaOf inertia load isCoupled targetRpm currentRpm
          * (currentRpm - targetRpm) := by
  unfold rpmBlend
  ring

/-- Geometric decay of the iterated blend's distance to the target. -/
lemma rpmIter_abs_le (inertia load : ℝ) (isCoupled : Bool)
    (targetRpm rpm0 : ℝ) (hi0 : 0 < inertia) (hi1 : inertia < 1)
    (hl0 : 0 ≤ load) (hl1 : load ≤ 1) :
    ∀ n, |rpmIter inertia load isCoupled targetRpm rpm0 n - targetRpm|
      ≤ (inertia + (1 - inertia) * 0.9) ^ n * |rpm0 - targetRpm| := by
  intro n
  induction n with
  | zero => simp [rpmIter]
  | succ n ih =>
    have hq0 : (0 : ℝ) ≤ inertia + (1 - inertia) * 0.9 := by nlinarith
    have heff := effectiveInertiaOf_bounds inertia load isCoupled targetRpm
      (rpmIter inertia load isCoupled targetRpm rpm0 n) hi1 hl0 hl1
    calc |rpmIter inertia load isCoupled targetRpm rpm0 (n + 1) - targetRpm|
        = |effectiveInertiaOf inertia load isCoupled targetRpm
              (rpmIter inertia load isCoupled targetRpm rpm0 n)
            * (rpmIter inertia load isCoupled targetRpm rpm0 n - targetRpm)| := by
          rw [show rpmIter inertia load isCoupled targetRpm rpm0 (n + 1)
              = rpmBlend inertia load isCoupled targetRpm
                  (rpmIter inertia load isCoupled targetRpm rpm0 n) from rfl,
            rpmBlend_sub_target]
      _ = effectiveInertiaOf inertia load isCoupled targetRpm
              (rpmIter inertia load isCoupled targetRpm rpm0 n)
            * |rpmIter inertia load isCoupled targetRpm rpm0 n - targetRpm| := by
          rw [abs_mul, abs_of_nonneg (le_trans hi0.le heff.1)]
      _ ≤ (inertia + (1 - inertia) * 0.9)
            * ((inertia + (1 - inertia) * 0.9) ^ n * |rpm0 - targetRpm|) := by
          exact mul_le_mul heff.2 ih (abs_nonneg _) hq0
      _ = (inertia + (1 - inertia) * 0.9) ^ (n + 1) * |rpm0 - targetRpm| := by
          ring

/-- C7: for a fixed target, load in [0,1] and inertia in (0,1), the RPM
update is a contraction toward the target: the effective inertia stays
strictly inside (0,1) in both branches, each step scales the error by it,
the error strictly decreases away from the target, the sign of
`rpm − target` is preserved (no overshoot), the iterated error is monotone
nonincreasing, and the iterates converge to the target. -/
theorem c7_rpm_contraction (inertia load : ℝ) (isCoupled : Bool)
    (targetRpm : ℝ) (hi0 : 0 < inertia) (hi1 : inertia < 1) (hl0 : 0 ≤ load)
    (hl1 : load ≤ 1) :
    (∀ currentRpm,
        0 < effectiveInertiaOf inertia load isCoupled targetRpm currentRpm ∧
        effectiveInertiaOf inertia load isCoupled targetRpm currentRpm < 1) ∧
    (∀ currentRpm,
        rpmBlend inertia load isCoupled targetRpm currentRpm - targetRpm
          = effectiveInertiaOf inertia load isCoupled targetRpm currentRpm
              * (currentRpm - targetRpm)) ∧
    (∀ currentRpm, currentRpm ≠ targetRpm →
        |rpmBlend inertia load isCoupled targetRpm currentRpm - targetRpm|
          < |currentRpm - targetRpm|) ∧
    (∀ currentRpm, 0 < currentRpm - targetRpm →
        0 < rpmBlend inertia load isCoupled targetRpm currentRpm - targetRpm) ∧
    (∀ currentRpm, currentRpm - targetRpm < 0 →
        rpmBlend inertia load isCoupled targetRpm currentRpm - targetRpm < 0) ∧
    (∀ rpm0 n,
        |rpmIter inertia load isCoupled targetRpm rpm0 (n + 1) - targetRpm|
          ≤ |rpmIter inertia load isCoupled targetRpm rpm0 n - targetRpm|) ∧
    (∀ rpm0 ε, 0 < ε → ∃ N, ∀ n, N ≤ n →
        |rpmIter inertia load isCoupled targetRpm rpm0 n - targetRpm| < ε) := by
  have heffb : ∀ currentRpm,
      inertia ≤ effectiveInertiaOf inertia load isCoupled targetRpm currentRpm ∧
      effectiveInertiaOf inertia load isCoupled targetRpm currentRpm
        ≤ inertia + (1 - inertia) * 0.9 := fun currentRpm =>
    effectiveInertiaOf_bounds inertia load isCoupled targetRpm currentRpm hi1
      hl0 hl1
  have heff : ∀ currentRpm,
      0 < effectiveInertiaOf inertia load isCoupled targetRpm currentRpm ∧
      effectiveInertiaOf inertia load isCoupled targetRpm currentRpm < 1 := by
    intro currentRpm
    have h := heffb currentRpm
    exact ⟨lt_of_lt_of_le hi0 h.1, lt_of_le_of_lt h.2 (by nlinarith)⟩
  have hq1 : inertia + (1 - inertia) * 0.9 < 1 := by nlinarith
  have hq0 : (0 : ℝ) ≤ inertia + (1 - inertia) * 0.9 := by nlinarith
  refine ⟨heff, rpmBlend_sub_target inertia load isCoupled targetRpm, ?_, ?_, ?_,
    ?_, ?_⟩
  · intro currentRpm hne
    rw [rpmBlend_sub_target, abs_mul,
      abs_of_nonneg (heff currentRpm).1.le]
    have habs : 0 < |currentRpm - targetRpm| :=
      abs_pos.mpr (sub_ne_zero.mpr hne)
    nlinarith [(heff currentRpm).1, (heff currentRpm).2]
  · intro currentRpm hpos
    rw [rpmBlend_sub_target]
    exact mul_pos (heff currentRpm).1 hpos
  · intro currentRpm hneg
    rw [rpmBlend_sub_target]
    exact mul_neg_of_pos_of_neg (heff currentRpm).1 hneg
  · intro rpm0 n
    have h := heffb (rpmIter inertia load isCoupled targetRpm rpm0 n)
    rw [show rpmIter inertia load isCoupled targetRpm rpm0 (n + 1)
        = rpmBlend inertia load isCoupled targetRpm
            (rpmIter inertia load isCoupled targetRpm rpm0 n) from rfl,
      rpmBlend_sub_target, abs_mul,
      abs_of_nonneg (heff (rpmIter inertia load isCoupled targetRpm rpm0 n)).1.le]
    have h1 := (heff (rpmIter inertia load isCoupled targetRpm rpm0 n)).2
    nlinarith [abs_nonneg (rpmIter inertia load isCoupled targetRpm rpm0 n - targetRpm)]
  · intro rpm0 ε hε
    rcases eq_or_ne rpm0 targetRpm with h0 | h0
    · subst h0
      refine ⟨0, fun n _ => ?_⟩
      have h2 := rpmIter_abs_le inertia load isCoupled rpm0 rpm0 hi0 hi1 hl0
        hl1 n
      have h3 : |rpmIter inertia load isCoupled rpm0 rpm0 n - rpm0| ≤ 0 := by
        simpa using h2
      linarith
    · have hC : 0 < |rpm0 - targetRpm| := abs_pos.mpr (sub_ne_zero.mpr h0)
      obtain ⟨N, hN⟩ := exists_pow_lt_of_lt_one
        (div_pos hε hC) hq1
      refine ⟨N, fun n hn => ?_⟩
      have hiter := rpmIter_abs_le inertia load isCoupled targetRpm rpm0 hi0 hi1
        hl0 hl1 n
      have hpow : (inertia + (1 - inertia) * 0.9) ^ n
          ≤ (inertia + (1 - inertia) * 0.9) ^ N :=
        pow_le_pow_of_le_one hq0 hq1.le hn
      calc |rpmIter inertia load isCoupled targetRpm rpm0 n - targetRpm|
          ≤ (inertia + (1 - inertia) * 0.9) ^ n * |rpm0 - targetRpm| := hiter
        _ ≤ (inertia + (1 - inertia) * 0.9) ^ N * |rpm0 - targetRpm| :=
            mul_le_mul_of_nonneg_right hpow (abs_nonneg _)
        _ < (ε / |rpm0 - targetRpm|) * |rpm0 - targetRpm| :=
            (mul_lt_mul_of_pos_right (hN) hC)
        _ = ε := div_mul_cancel₀ ε (ne_of_gt hC)

/-- Witness for C7 at inertia 0.95, load 0.5, coupled, target 5000: one step
from 3000 strictly decreases the distance to the target. -/
theorem c7_rpm_contraction_witness :
    ((0 : ℝ) < 0.95 ∧ (0.95 : ℝ) < 1 ∧ (0 : ℝ) ≤ 0.5 ∧ (0.5 : ℝ) ≤ 1 ∧
        (3000 : ℝ) ≠ 5000) ∧
      |rpmBlend 0.95 0.5 true 5000 3000 - 5000| < |(3000 : ℝ) - 5000| :=
  ⟨by norm_num,
    (c7_rpm_contraction 0.95 0.5 true 5000 (by norm_num) (by norm_num)
        (by norm_num) (by norm_num)).2.2.1 3000 (by norm_num)⟩

/- ---------------------------------------------------------------------- -/
/- Theorems : audio output range (C9)                                      -/
/- ---------------------------------------------------------------------- -/

/-- The hyperbolic tangent saturator stays strictly inside (-1, 1). -/
lemma abs_tanh_lt_one (x : ℝ) : |Real.tanh x| < 1 := by
  have hc := Real.cosh_pos x
  have h1 : Real.sinh x < Real.cosh x := Real.sinh_lt_cosh x
  have h2 : -Real.cosh x < Real.sinh x := by
    have h := Real.sinh_lt_cosh (-x)
    rw [Real.sinh_neg, Real.cosh_neg] at h
    linarith
  rw [Real.tanh_eq_sinh_div_cosh, abs_div, abs_of_pos hc, div_lt_one hc]
  exact abs_lt.mpr ⟨h2, h1⟩

/-- One output-stage step keeps the post-LPF state strictly inside (-1, 1)
and produces a sample inside [-1, 1]. -/
lemma outputStage_bound (throttle drive signal postLpf : ℝ)
    (hp : |postLpf| < 1) (h0 : 0 ≤ throttle) (h1 : throttle ≤ 1) :
    |(outputStage throttle drive signal postLpf).2| < 1 ∧
    -1 ≤ (outputStage throttle drive signal postLpf).1 ∧
    (outputStage throttle drive signal postLpf).1 ≤ 1 := by
  unfold outputStage
  have hy := abs_tanh_lt_one (drive * signal)
  rw [abs_lt] at hy hp
  have hy1 := hy.1
  have hy2 := hy.2
  have hp1 := hp.1
  have hp2 := hp.2
  refine ⟨abs_lt.mpr ⟨by nlinarith, by nlinarith⟩, by nlinarith, by nlinarith⟩

/-- Every sample of a rendered block is inside [-1, 1], by induction on the
block with the post-LPF state invariant `|postLpf| < 1`. -/
lemma renderSamples_bound :
    ∀ (xs : List SampleIn) (postLpf : ℝ), |postLpf| < 1 →
      (∀ x ∈ xs, 0 ≤ x.throttle ∧ x.throttle ≤ 1) →
      ∀ y ∈ renderSamples postLpf xs, -1 ≤ y ∧ y ≤ 1 := by
  intro xs
  induction xs with
  | nil =>
    intro postLpf hp hx y hy
    simp [renderSamples] at hy
  | cons x rest ih =>
    intro postLpf hp hx y hy
    have hxcur := hx x (List.mem_cons_self x rest)
    have hb := outputStage_bound x.throttle
      (driveOf x.throttle x.vtecBlend x.fa24Mode) x.preSignal postLpf hp
      hxcur.1 hxcur.2
    have hy' : y = (outputStage x.throttle
          (driveOf x.throttle x.vtecBlend x.fa24Mode) x.preSignal postLpf).1 ∨
        y ∈ renderSamples (outputStage x.throttle
          (driveOf x.throttle x.vtecBlend x.fa24Mode) x.preSignal postLpf).2
          rest := by
      simpa [renderSamples] using hy
    rcases hy' with rfl | h2
    · exact ⟨hb.2.1, hb.2.2⟩
    · exact ih _ hb.1 (fun z hz => hx z (List.mem_cons_of_mem _ hz)) y h2

/-- C9: every output sample of the synthesizer lies in [-1, 1] — the sample
is tanh-saturated, blended 82/18 with a post low-pass state that stays
strictly inside (-1, 1) starting from 0, and scaled by the master gain
0.34 — and the mono channel is copied verbatim to every output channel. -/
theorem c9_output_in_range :
    (∀ xs : List SampleIn, (∀ x ∈ xs, 0 ≤ x.throttle ∧ x.throttle ≤ 1) →
        ∀ y ∈ renderSamples 0 xs, -1 ≤ y ∧ y ≤ 1) ∧
    (∀ (numChannels : ℕ) (channel ch : List ℝ),
        ch ∈ duplicateChannels numChannels channel → ch = channel) := by
  constructor
  · intro xs hx y hy
    exact renderSamples_bound xs 0 (by norm_num) hx y hy
  · intro numChannels channel ch hch
    exact List.eq_of_mem_replicate hch

/-- Witness for C9: a one-sample block at half throttle with pre-distortion
signal 2 yields a sample inside [-1, 1]. -/
theorem c9_output_in_range_witness :
    ((0 : ℝ) ≤ (0.5 : ℝ) ∧ (0.5 : ℝ) ≤ 1) ∧
      -1 ≤ (outputStage 0.5 (driveOf 0.5 0 0) 2 0).1 ∧
      (outputStage 0.5 (driveOf 0.5 0 0) 2 0).1 ≤ 1 :=
  ⟨by norm_num,
    c9_output_in_range.1 [⟨0.5, 0, 0, 2⟩]
      (by
        intro x hx
        rw [List.mem_singleton] at hx
        subst hx
        exact ⟨by norm_num, by norm_num⟩)
      (outputStage 0.5 (driveOf 0.5 0 0) 2 0).1
      (by simp [renderSamples])⟩

/- ---------------------------------------------------------------------- -/
/- Theorems : speed is derived from RPM, not integrated (C1)               -/
/- ---------------------------------------------------------------------- -/

/-- The tick writes the speed through the coupled/declutched branch
(definitional unfolding of updateTick). -/
lemma updateTick_speed_eq (v : Vehicle) (s : PhysState) :
    (updateTick v s).speed
      = if getOverallRatio s.gear v > 0 then
          (updateTick v s).currentRpm * 2 * Real.pi * v.wheelRadius
            / (getOverallRatio s.gear v * 60)
        else 0 :=
  rfl

/-- C1 (amended): the tick computes the longitudinal acceleration from the
net force, but the vehicle speed is not integrated from it — the tick sets
the speed directly from the post-update RPM and the overall ratio when
coupled, and to 0 when declutched (a discontinuous drop, with no frame
delta involved). -/
theorem c1_speed_derived_from_rpm (v : Vehicle) (s : PhysState) :
    (getOverallRatio s.gear v ≤ 0 → (updateTick v s).speed = 0) ∧
    (0 < getOverallRatio s.gear v →
      (updateTick v s).speed
        = (updateTick v s).currentRpm * 2 * Real.pi * v.wheelRadius
            / (getOverallRatio s.gear v * 60)) := by
  constructor
  · intro h
    rw [updateTick_speed_eq, if_neg (not_lt.mpr h)]
  · intro h
    rw [updateTick_speed_eq, if_pos h]

/-- Witness for C1: in neutral, the tick zeroes the speed. -/
theorem c1_speed_derived_from_rpm_witness :
    getOverallRatio (0 : ℤ) defaultVehicle ≤ 0 ∧
      (updateTick defaultVehicle
        { currentRpm := 3000, currentThrottle := 0, targetThrottle := 0,
          throttleResponse := 0.1, speed := 10, gear := 0, roadLoad := 0,
          load := 0.05, idleRpm := 900, redlineRpm := 7000,
          inertia := 0.95 }).speed = 0 :=
  ⟨le_of_eq (by norm_num [getOverallRatio]),
    (c1_speed_derived_from_rpm defaultVehicle
      { currentRpm := 3000, currentThrottle := 0, targetThrottle := 0,
        throttleResponse := 0.1, speed := 10, gear := 0, roadLoad := 0,
        load := 0.05, idleRpm := 900, redlineRpm := 7000,
        inertia := 0.95 }).1 (le_of_eq (by norm_num [getOverallRatio]))⟩

/-- The concrete declutched tick state refuting the claimed speed
integration: gear in neutral while rolling at 10 m/s. -/
def c1State : PhysState :=
  { currentRpm := 3000, currentThrottle := 0, targetThrottle := 0,
    throttleResponse := 0.1, speed := 10, gear := 0, roadLoad := 0,
    load := 0.05, idleRpm := 900, redlineRpm := 7000, inertia := 0.95 }

/-- In neutral at 10 m/s the computed acceleration is the coasting
deceleration `-resistiveForce / mass`. -/
lemma tickAccel_c1State :
    tickAccel defaultVehicle c1State = -(197.5095 : ℝ) / 1350 := by
  have hr : getOverallRatio c1State.gear defaultVehicle = 0 := by
    norm_num [getOverallRatio, c1State]
  unfold tickAccel
  rw [hr]
  norm_num [resistiveForceOf, AIR_DENSITY, GRAVITY, defaultVehicle, c1State]

/-- C1 counterexample: at the declutched state rolling at 10 m/s the code
sets the speed to 0, while the claimed integration
`max(0, speed + accel × dt)` (at the maximal clamped dt of 50 ms) keeps it
near 10 m/s — the two disagree. -/
theorem c1_counterexample :
    (updateTick defaultVehicle c1State).speed
      ≠ max 0 (c1State.speed + tickAccel defaultVehicle c1State * 0.05) := by
  have hr : getOverallRatio c1State.gear defaultVehicle = 0 := by
    norm_num [getOverallRatio, c1State]
  have hs : (updateTick defaultVehicle c1State).speed = 0 := by
    rw [updateTick_speed_eq, hr]
    norm_num
  have hpos : (0 : ℝ)
      < max 0 (c1State.speed + tickAccel defaultVehicle c1State * 0.05) := by
    apply lt_max_of_lt_right
    rw [tickAccel_c1State]
    norm_num [c1State]
  rw [hs]
  exact ne_of_lt hpos

/- ---------------------------------------------------------------------- -/
/- Theorems : RPM integrator scenario (C3)                                 -/
/- ---------------------------------------------------------------------- -/

/-- Rational bounds on `√(3/7)`. -/
lemma sqrt_three_sevenths_bounds :
    (0.654 : ℝ) < Real.sqrt (3 / 7) ∧ Real.sqrt (3 / 7) < 0.655 :=
  ⟨(Real.lt_sqrt (by norm_num)).mpr (by norm_num),
    (Real.sqrt_lt' (by norm_num)).mpr (by norm_num)⟩

/-- The target RPM of the scenario state carries the internal-resistance
correction `0.15 × (3000/7000)^1.5` applied to the free target 5170. -/
lemma targetRpm_c3 :
    targetRpmOf 900 7000 3000 0.7
      = 5170 * (1 - 0.15 * (3 / 7 * Real.sqrt (3 / 7)) * (1 - 0.7)) := by
  have hs := sqrt_three_sevenths_bounds
  unfold targetRpmOf freeTargetRpmOf
  rw [show (3000 : ℝ) / 7000 = 3 / 7 by norm_num]
  rw [max_eq_right (by nlinarith [hs.1, hs.2, Real.sqrt_nonneg ((3 : ℝ) / 7)])]
  ring

/-- The scenario target RPM lies strictly between 5104 and 5105. -/
lemma targetRpm_c3_bounds :
    (5104 : ℝ) < targetRpmOf 900 7000 3000 0.7 ∧
      targetRpmOf 900 7000 3000 0.7 < 5105 := by
  have hs := sqrt_three_sevenths_bounds
  rw [targetRpm_c3]
  constructor <;> nlinarith [hs.1, hs.2]

/-- With load 0 the scenario blend is rising with effective inertia exactly
0.95, i.e. `3000 × 0.95 + targetRpm × 0.05`. -/
lemma rpmBlend_c3_eq :
    rpmBlend 0.95 0 true (targetRpmOf 900 7000 3000 0.7) 3000
      = 3000 * 0.95 + targetRpmOf 900 7000 3000 0.7 * 0.05 := by
  have htgt : targetRpmOf 900 7000 3000 0.7 > 3000 := by
    have := targetRpm_c3_bounds.1
    linarith
  unfold rpmBlend effectiveInertiaOf
  rw [if_pos htgt,
    show (0 : ℝ) * 0.7 = 0 by ring,
    min_eq_right (by norm_num : (0 : ℝ) ≤ 0.9)]
  ring

/-- The scenario blend result lies strictly between 3105 and 3106. -/
lemma rpmBlend_c3_bounds :
    (3105 : ℝ) < rpmBlend 0.95 0 true (targetRpmOf 900 7000 3000 0.7) 3000 ∧
      rpmBlend 0.95 0 true (targetRpmOf 900 7000 3000 0.7) 3000 < 3106 := by
  rw [rpmBlend_c3_eq]
  have h := targetRpm_c3_bounds
  constructor <;> nlinarith [h.1, h.2]

/-- C3 counterexample: the scenario's next RPM is not 3108.5, because the
target entering the blend is the resistance-corrected 5104.7…, not the free
target 5170. -/
theorem c3_counterexample :
    rpmBlend 0.95 0 true (targetRpmOf 900 7000 3000 0.7) 3000 ≠ 3108.5 :=
  ne_of_lt (lt_trans rpmBlend_c3_bounds.2 (by norm_num))

/-- C3 (amended): for idle 900, redline 7000, throttle 0.7, load 0,
inertia 0.95 and current RPM 3000 the free target is 5170, but the blended
target carries the internal-resistance correction
`5170 × (1 − 0.15 × (3/7)^1.5 × 0.3) ≈ 5104.7`, the rising effective inertia
is exactly 0.95, and the next RPM `3000 × 0.95 + target × 0.05` lies in
(3105, 3106) — about 3105.24, not 3108.5. -/
theorem c3_scenario :
    freeTargetRpmOf 900 7000 0.7 = 5170 ∧
    targetRpmOf 900 7000 3000 0.7
      = 5170 * (1 - 0.15 * (3 / 7 * Real.sqrt (3 / 7)) * (1 - 0.7)) ∧
    rpmBlend 0.95 0 true (targetRpmOf 900 7000 3000 0.7) 3000
      = 3000 * 0.95 + targetRpmOf 900 7000 3000 0.7 * 0.05 ∧
    (3105 : ℝ) < rpmBlend 0.95 0 true (targetRpmOf 900 7000 3000 0.7) 3000 ∧
    rpmBlend 0.95 0 true (targetRpmOf 900 7000 3000 0.7) 3000 < 3106 :=
  ⟨by norm_num [freeTargetRpmOf], targetRpm_c3, rpmBlend_c3_eq,
    rpmBlend_c3_bounds.1, rpmBlend_c3_bounds.2⟩

/- ---------------------------------------------------------------------- -/
/- Theorems : gear-change RPM snap (C4)                                    -/
/- ---------------------------------------------------------------------- -/

/-- The snapped RPM at 31.1 m/s in 4th gear (1.27 × 3.42) with wheel radius
0.33 lies strictly between 3908 and 3910. -/
lemma c4_snap_bounds :
    (3908 : ℝ)
        < adjustRpmForGearChange true 31.1 (1.27 * 3.42) 0.33 900 7000 3000 ∧
      adjustRpmForGearChange true 31.1 (1.27 * 3.42) 0.33 900 7000 3000
        < 3910 := by
  have hpi1 : (3.1415 : ℝ) < Real.pi := Real.pi_gt_d4
  have hpi2 : Real.pi < 3.1416 := Real.pi_lt_d4
  have hpi0 : (0 : ℝ) < Real.pi := by linarith
  have hden : (0 : ℝ) < 2 * Real.pi * 0.33 := by nlinarith
  have hXlo : (3908 : ℝ) < 31.1 * (1.27 * 3.42) * 60 / (2 * Real.pi * 0.33) := by
    rw [lt_div_iff₀ hden]
    nlinarith
  have hXhi : 31.1 * (1.27 * 3.42) * 60 / (2 * Real.pi * 0.33) < 3910 := by
    rw [div_lt_iff₀ hden]
    nlinarith
  have hval : adjustRpmForGearChange true 31.1 (1.27 * 3.42) 0.33 900 7000 3000
      = 31.1 * (1.27 * 3.42) * 60 / (2 * Real.pi * 0.33) := by
    unfold adjustRpmForGearChange clampRpm
    rw [if_neg (by norm_num), if_neg (by norm_num),
      min_eq_left (by linarith : 31.1 * (1.27 * 3.42) * 60 / (2 * Real.pi * 0.33)
        ≤ 7000 * 1.05),
      max_eq_right (by linarith : (900 : ℝ) * 0.75
        ≤ 31.1 * (1.27 * 3.42) * 60 / (2 * Real.pi * 0.33))]
  rw [hval]
  exact ⟨hXlo, hXhi⟩

/-- C4 counterexample: the snapped RPM at the claimed inputs is nowhere near
3132 — it is not even within [3000, 3300]. -/
theorem c4_counterexample :
    adjustRpmForGearChange true 31.1 (1.27 * 3.42) 0.33 900 7000 3000
      ∉ Set.Icc (3000 : ℝ) 3300 := by
  intro h
  have h1 := c4_snap_bounds.1
  have h2 := h.2
  linarith

/-- C4 (amended): on a gear change while playing, moving (speed ≥ 0.1 m/s)
and coupled, the RPM is snapped instantaneously to
`speed × newOverallRatio × 60 / (2π × wheelRadius)` clamped to
`[idle × 0.75, redline × 1.05]`; for speed 31.1 m/s, 4th gear
(1.27 × 3.42 = 4.3434) and wheel radius 0.33 the snapped RPM is about 3909
(strictly between 3908 and 3910), not ≈ 3132. -/
theorem c4_gear_snap :
    (∀ speed ratio wheelRadius idleRpm redlineRpm cur : ℝ,
        0.1 ≤ speed → ratio ≠ 0 →
        adjustRpmForGearChange true speed ratio wheelRadius idleRpm redlineRpm
            cur
          = clampRpm idleRpm redlineRpm
              (speed * ratio * 60 / (2 * Real.pi * wheelRadius))) ∧
    (3908 : ℝ)
        < adjustRpmForGearChange true 31.1 (1.27 * 3.42) 0.33 900 7000 3000 ∧
    adjustRpmForGearChange true 31.1 (1.27 * 3.42) 0.33 900 7000 3000
      < 3910 := by
  refine ⟨?_, c4_snap_bounds.1, c4_snap_bounds.2⟩
  intro speed ratio wheelRadius idleRpm redlineRpm cur hspeed hratio
  unfold adjustRpmForGearChange
  rw [if_neg (by simp [not_lt.mpr hspeed]), if_neg hratio]

/-- Witness for C4: the general snap formula applies at the concrete
scenario inputs. -/
theorem c4_gear_snap_witness :
    ((0.1 : ℝ) ≤ 31.1 ∧ ((1.27 : ℝ) * 3.42) ≠ 0) ∧
      adjustRpmForGearChange true 31.1 (1.27 * 3.42) 0.33 900 7000 3000
        = clampRpm 900 7000 (31.1 * (1.27 * 3.42) * 60 / (2 * Real.pi * 0.33)) :=
  ⟨by norm_num,
    c4_gear_snap.1 31.1 (1.27 * 3.42) 0.33 900 7000 3000 (by norm_num)
      (by norm_num)⟩
